import Mathlib

set_option maxRecDepth 16384

/-!
Formal model of the `libdnscheck` crate (src/libdnscheck/src/lib.rs) of the
rblcheck repository, together with proofs of the behavioural claims about it.

The Rust code talks to the `org.freedesktop.resolve1` D-Bus service.  In this
shallow embedding the D-Bus `ResolveHostname` call is modelled as an explicit
function argument of type `Resolver` (hostname string to either a structured
`MethodErr` or a reply tuple), and the diagnostic `println!` calls of `lookup`
become an explicit list of `Diag` events returned next to the value.
Everything else is translated directly from the Rust source.
-/

instance {ε α : Type} [DecidableEq ε] [DecidableEq α] : DecidableEq (Except ε α) := fun x y =>
  match x, y with
  | Except.ok a, Except.ok b =>
      if h : a = b then isTrue (by rw [h]) else isFalse (by intro hc; cases hc; exact h rfl)
  | Except.ok _, Except.error _ => isFalse (by intro hc; cases hc)
  | Except.error _, Except.ok _ => isFalse (by intro hc; cases hc)
  | Except.error e, Except.error f =>
      if h : e = f then isTrue (by rw [h]) else isFalse (by intro hc; cases hc; exact h rfl)

/-- Octets of an IPv4 address in network order, as returned by Rust's
`Ipv4Addr::octets()`: field `o0` is `octets()[0]`, ..., `o3` is `octets()[3]`. -/
structure Ipv4Addr where
  o0 : Nat
  o1 : Nat
  o2 : Nat
  o3 : Nat
deriving DecidableEq

/-- The 16 octets of an IPv6 address in network order, as returned by Rust's
`Ipv6Addr::octets()` (each intended to be a byte, i.e. `< 256`). -/
structure Ipv6Addr where
  octets : List Nat
deriving DecidableEq

/-- Rust's `std::net::IpAddr`. -/
inductive IpAddr where
  | V4 (v4 : Ipv4Addr)
  | V6 (v6 : Ipv6Addr)
deriving DecidableEq

/-- `Query` from lib.rs lines 11-15: a lookup target, either an address or a
domain name. -/
inductive Query where
  | Address (ip : IpAddr)
  | Domain (d : String)
deriving DecidableEq

/-- `DnsCheckError` from lib.rs lines 30-38. -/
inductive DnsCheckError where
  | DBus (code : String) (desc : String)
  | NxDomain (desc : String)
  | Unknown
deriving DecidableEq

/-- `DnsListMembership` from lib.rs lines 40-44. -/
structure DnsListMembership where
  name : String
  list : String
  found : Bool
deriving DecidableEq

/-- `Output` from lib.rs lines 46-51: the verbosity level. -/
inductive Output where
  | Quiet
  | Normal
  | Verbose
deriving DecidableEq

/-- The structured D-Bus error (`dbus::MethodErr`): an error identifier
(`errorname()`) and a human-readable description (`description()`). -/
structure MethodErr where
  errorname : String
  description : String
deriving DecidableEq

/-- Rust's `str::starts_with`, expressed on the underlying character lists so
that it computes by structural recursion: `strStartsWith s p` holds when `p`
is a prefix of `s`. -/
def strStartsWith (s p : String) : Bool :=
  p.data.isPrefixOf s.data

/-- `impl From<MethodErr> for DnsCheckError`, lib.rs lines 53-63: errors whose
identifier starts with the resolver's NXDOMAIN error name become `NxDomain`,
every other error becomes `DBus` with identifier and description verbatim. -/
def DnsCheckError.fromMethodErr (e : MethodErr) : DnsCheckError :=
  if strStartsWith e.errorname "org.freedesktop.resolve1.DnsError.NXDOMAIN" then
    DnsCheckError.NxDomain e.description
  else
    DnsCheckError.DBus e.errorname e.description

/-- Lowercase hexadecimal rendering of a natural number, Rust's `{:x}`. -/
def hexRepr (n : Nat) : String :=
  String.mk (Nat.toDigits 16 n)

/-- `format_v6` from lib.rs lines 139-145: split each octet into its high and
low nibble, render each nibble in hex, and left-fold prepending each rendered
nibble (followed by a dot) in front of the accumulator. -/
def format_v6 (ip : Ipv6Addr) : String :=
  ((ip.octets.flatMap fun o => [o >>> 4, o &&& 0xF]).map fun d => hexRepr d).foldl
    (fun a d => d ++ "." ++ a) ""

/-- `format_ip` from lib.rs lines 126-137: IPv4 octets are emitted in reverse
order, dot-separated, with a trailing dot; IPv6 goes through `format_v6`. -/
def format_ip (ip : IpAddr) : String :=
  match ip with
  | IpAddr.V4 v4 =>
      toString v4.o3 ++ "." ++ toString v4.o2 ++ "." ++ toString v4.o1 ++ "." ++
        toString v4.o0 ++ "."
  | IpAddr.V6 v6 => format_v6 v6

/-- Rust's `Display for Ipv4Addr`: dotted decimal in network order. -/
def Ipv4Addr.render (v4 : Ipv4Addr) : String :=
  toString v4.o0 ++ "." ++ toString v4.o1 ++ "." ++ toString v4.o2 ++ "." ++ toString v4.o3

/-- The eight 16-bit segments of an IPv6 address from its 16 octets, Rust's
`Ipv6Addr::segments()` (big-endian pairs of octets). -/
def segmentsOf : List Nat → List Nat
  | a :: b :: rest => (a * 256 + b) :: segmentsOf rest
  | _ => []

/-- One step of the longest-zero-run search in Rust's `Display for Ipv6Addr`:
the state is `(longest, current)`, each a `(start, len)` span over the segment
list; a strictly longer current run replaces the recorded longest one. -/
def zeroSpanStep (acc : (Nat × Nat) × (Nat × Nat)) (iseg : Nat × Nat) :
    (Nat × Nat) × (Nat × Nat) :=
  let longest := acc.1
  let current := acc.2
  if iseg.2 = 0 then
    let started := if current.2 = 0 then (iseg.1, current.2) else current
    let grown := (started.1, started.2 + 1)
    let best := if longest.2 < grown.2 then grown else longest
    (best, grown)
  else
    (longest, (0, 0))

/-- The longest (leftmost on ties) run of zero segments, as `(start, len)`. -/
def innerZeroSpan (segs : List Nat) : Nat × Nat :=
  (segs.enum.foldl zeroSpanStep ((0, 0), (0, 0))).1

/-- Rust's `fmt_subslice`: hex segments joined by colons. -/
def hexSegsJoined (chunk : List Nat) : String :=
  String.intercalate ":" (chunk.map hexRepr)

/-- Rust's `Display for Ipv6Addr` (default formatting): special cases for the
unspecified address, loopback and IPv4-mapped addresses, otherwise zero-run
compression with `::` when the longest zero run has length at least two. -/
def Ipv6Addr.render (ip : Ipv6Addr) : String :=
  let segs := segmentsOf ip.octets
  if segs = [0, 0, 0, 0, 0, 0, 0, 0] then "::"
  else if segs = [0, 0, 0, 0, 0, 0, 0, 1] then "::1"
  else if segs.take 6 = [0, 0, 0, 0, 0, 0xffff] then
    let g := segs.getD 6 0
    let h := segs.getD 7 0
    "::ffff:" ++ Ipv4Addr.render ⟨g >>> 8, g &&& 0xff, h >>> 8, h &&& 0xff⟩
  else
    let span := innerZeroSpan segs
    if 1 < span.2 then
      hexSegsJoined (segs.take span.1) ++ "::" ++ hexSegsJoined (segs.drop (span.1 + span.2))
    else
      hexSegsJoined segs

/-- Rust's `Display for IpAddr`: delegate to the concrete address type. -/
def IpAddr.render (ip : IpAddr) : String :=
  match ip with
  | IpAddr.V4 v4 => v4.render
  | IpAddr.V6 v6 => v6.render

/-- `impl Display for Query`, lib.rs lines 17-28: an address renders in its
standard notation, a domain renders as its literal string. -/
def Query.render (q : Query) : String :=
  match q with
  | Query.Address ip => ip.render
  | Query.Domain d => d

/-- The reply tuple of the D-Bus `ResolveHostname` call, lib.rs line 98:
a list of address records `(family, scope, raw bytes)`, the canonical name,
and a flags word. -/
abbrev DBusDnsResponse : Type :=
  List (Int × Int × List Nat) × String × Nat

/-- The external resolver service, modelled as a function from the queried
hostname to either a structured error or a reply. -/
abbrev Resolver : Type :=
  String → Except MethodErr DBusDnsResponse

/-- The diagnostic lines `lookup` prints when verbose (lib.rs lines 76-78,
94-96, 103-105), kept as structured events. -/
inductive Diag where
  | sourceQuery (source : String) (query : Query)
  | querying (hostname : String)
  | result (r : Except DnsCheckError DBusDnsResponse)

/-- The query fragment of the looked-up hostname, lib.rs lines 87-90: a domain
with a trailing dot appended, or the `format_ip` rendering of an address. -/
def queryhostOf (query : Query) : String :=
  match query with
  | Query.Domain d => d ++ "."
  | Query.Address ip => format_ip ip

/-- The hostname submitted to the resolver, lib.rs line 92:
`format!("{}{}.", queryhost, source)`. -/
def hostnameOf (query : Query) (source : String) : String :=
  queryhostOf query ++ source ++ "."

/-- `lookup` from lib.rs lines 71-124.  The resolver call's error is mapped
through `DnsCheckError.fromMethodErr`; an `NxDomain` error is absorbed into a
successful membership with `found = false`; any other error propagates; a
reply yields `found` true exactly when its address-record list is non-empty.
Returns the result together with the diagnostic events emitted. -/
def lookup (resolver : Resolver) (source : String) (query : Query) (output : Output) :
    Except DnsCheckError DnsListMembership × List Diag :=
  let diags1 : List Diag :=
    if output = Output.Verbose then [Diag.sourceQuery source query] else []
  let hostname := hostnameOf query source
  let diags2 : List Diag :=
    if output = Output.Verbose then [Diag.querying hostname] else []
  let result : Except DnsCheckError DBusDnsResponse :=
    (resolver hostname).mapError DnsCheckError.fromMethodErr
  let diags3 : List Diag :=
    if output = Output.Verbose then [Diag.result result] else []
  let value : Except DnsCheckError DnsListMembership :=
    match result with
    | Except.error (DnsCheckError.NxDomain _) =>
        Except.ok { name := query.render, list := source, found := false }
    | Except.error e => Except.error e
    | Except.ok r => Except.ok { name := query.render, list := source, found := !r.1.isEmpty }
  (value, diags1 ++ diags2 ++ diags3)

/-- Rust's `collect::<Result<Vec<_>, _>>()`: gather the values of a sequence
of fallible results, stopping at the first error. -/
def collectExcept {ε α : Type} : List (Except ε α) → Except ε (List α)
  | [] => Except.ok []
  | Except.error e :: _ => Except.error e
  | Except.ok a :: rest => (collectExcept rest).map fun as => a :: as

/-- `count_lists` from lib.rs lines 147-160: for each query in order, look up
every source in order (sources are the inner loop), and collect the results
fail-fast. -/
def count_lists (resolver : Resolver) (queries : List Query) (sources : List String)
    (output : Output) : Except DnsCheckError (List DnsListMembership) :=
  collectExcept (queries.flatMap fun query =>
    sources.map fun source => (lookup resolver source query output).fst)

/-- The (query, source) cross product in the iteration order of
`count_lists`: query-major, source-minor. -/
def pairsOf (queries : List Query) (sources : List String) : List (Query × String) :=
  queries.flatMap fun query => sources.map fun source => (query, source)

/-- Modelled from the spec wording of claim C5: "octets reversed, dot-joined,
with a trailing dot". -/
def specV4Reversed (v4 : Ipv4Addr) : String :=
  String.join (([v4.o0, v4.o1, v4.o2, v4.o3].reverse).map fun o => toString o ++ ".")

/-- Modelled from the spec wording of claim C6: the 32 hexadecimal nibbles of
the 16 octets, high nibble first within each octet. -/
def specNibbles (octets : List Nat) : List Nat :=
  octets.flatMap fun o => [o / 16, o % 16]

/-- Modelled from the spec wording of claim C6: the nibbles in full reverse
order, dot-joined, ending with a trailing dot. -/
def specV6Reversed (octets : List Nat) : String :=
  String.join ((specNibbles octets).reverse.map fun d => hexRepr d ++ ".")

theorem byte_nibbles : ∀ o < 256, o >>> 4 = o / 16 ∧ o &&& 0xF = o % 16 := by decide

theorem flatMap_nibbles_eq (l : List Nat) :
    (∀ o ∈ l, o < 256) → (l.flatMap fun o => [o >>> 4, o &&& 0xF]) = specNibbles l := by
  unfold specNibbles
  induction l with
  | nil => intro _; rfl
  | cons o t ih =>
    intro h
    have hb := byte_nibbles o (h o (List.mem_cons_self o t))
    simp [List.flatMap_cons, hb.1, hb.2, ih fun x hx => h x (List.mem_cons_of_mem o hx)]

theorem foldl_prepend_dot (l : List String) (a : String) :
    l.foldl (fun acc d => d ++ "." ++ acc) a =
      String.join (l.reverse.map fun d => d ++ ".") ++ a := by
  induction l generalizing a with
  | nil => simp [String.join]
  | cons d t ih =>
    rw [List.foldl_cons, ih]
    simp [String.join, List.foldl_append, String.append_assoc]

/-- Claim C5: the IPv4 query encoding is the octets reversed, dot-joined, with
a trailing dot; in particular 192.0.2.1 encodes to "1.2.0.192.". -/
theorem claim5_ipv4_reversed (v4 : Ipv4Addr) :
    format_ip (IpAddr.V4 v4) = specV4Reversed v4 ∧
    format_ip (IpAddr.V4 ⟨192, 0, 2, 1⟩) = "1.2.0.192." := by
  constructor
  · simp [format_ip, specV4Reversed, String.join, String.append_assoc]
  · decide

/-- Claim C6: the IPv6 query encoding expands the 16 octets (bytes) to 32
hexadecimal nibbles, high nibble first within each octet, and emits the
nibbles in full reverse order, dot-joined, with a trailing dot. -/
theorem claim6_ipv6_nibble_reversed (v6 : Ipv6Addr) (h : ∀ o ∈ v6.octets, o < 256) :
    format_v6 v6 = specV6Reversed v6.octets := by
  unfold format_v6 specV6Reversed
  rw [flatMap_nibbles_eq v6.octets h, foldl_prepend_dot]
  simp [List.map_reverse, List.map_map, Function.comp_def]

/-- The 16 octets of the IPv6 address 2001:db8::1. -/
def octetsDb8 : List Nat :=
  [0x20, 0x01, 0x0d, 0xb8, 0, 0, 0, 0, 0, 0, 0, 0, 0, 0, 0, 0x01]

/-- Witness for claim C6: encoding 2001:db8::1 yields the standard ip6.arpa
reverse-nibble dotted form of that address, ending in a dot. -/
theorem claim6_ipv6_nibble_reversed_witness :
    (∀ o ∈ octetsDb8, o < 256) ∧
    format_v6 ⟨octetsDb8⟩ =
      "1.0.0.0.0.0.0.0.0.0.0.0.0.0.0.0.0.0.0.0.0.0.0.0.8.b.d.0.1.0.0.2." :=
  ⟨by decide, (claim6_ipv6_nibble_reversed ⟨octetsDb8⟩ (by decide)).trans (by decide)⟩

/-- Claim C7: a domain target encodes to the literal domain followed by a
trailing dot, with no label reversal; "example.com" encodes to
"example.com.". -/
theorem claim7_domain_trailing_dot (d : String) :
    queryhostOf (Query.Domain d) = d ++ "." ∧
    queryhostOf (Query.Domain "example.com") = "example.com." :=
  ⟨rfl, by decide⟩

/-- Claim C8: the hostname submitted to the resolver is the encoded query
fragment, then the source, then a trailing dot; for domain "example.com" and
source "zen.spamhaus.org" it is "example.com.zen.spamhaus.org."; and the
lookup consults the resolver only at that hostname (its outcome is a function
of the resolver's reply there). -/
theorem claim8_hostname_concatenation (query : Query) (source : String) :
    hostnameOf query source = queryhostOf query ++ source ++ "." ∧
    hostnameOf (Query.Domain "example.com") "zen.spamhaus.org" =
      "example.com.zen.spamhaus.org." ∧
    ∀ output : Output, ∃ g : Except MethodErr DBusDnsResponse →
        Except DnsCheckError DnsListMembership × List Diag,
      ∀ resolver : Resolver,
        lookup resolver source query output = g (resolver (hostnameOf query source)) :=
  ⟨rfl, by decide, fun output =>
    ⟨fun res => lookup (fun _ => res) source query output, fun _ => rfl⟩⟩

/-- Claim C9: the verbosity argument has no effect on the value returned by
the single-pair lookup; it only selects the diagnostic events. -/
theorem claim9_verbosity_no_effect (resolver : Resolver) (source : String) (query : Query)
    (o1 o2 : Output) :
    (lookup resolver source query o1).fst = (lookup resolver source query o2).fst :=
  rfl

/-- Claim C10: classifying a structured resolver error always yields either
the NXDOMAIN case (identifier starts with the NXDOMAIN error name) or the
transport-error case carrying identifier and description verbatim, so the
`Unknown` catch-all is unreachable through the conversion path. -/
theorem claim10_unknown_unreachable (e : MethodErr) :
    ((strStartsWith e.errorname "org.freedesktop.resolve1.DnsError.NXDOMAIN" = true ∧
        DnsCheckError.fromMethodErr e = DnsCheckError.NxDomain e.description) ∨
      (strStartsWith e.errorname "org.freedesktop.resolve1.DnsError.NXDOMAIN" = false ∧
        DnsCheckError.fromMethodErr e = DnsCheckError.DBus e.errorname e.description)) ∧
    DnsCheckError.fromMethodErr e ≠ DnsCheckError.Unknown := by
  unfold DnsCheckError.fromMethodErr
  cases h : strStartsWith e.errorname "org.freedesktop.resolve1.DnsError.NXDOMAIN" <;>
    simp [h]

theorem count_lists_eq_pairs (resolver : Resolver) (queries : List Query)
    (sources : List String) (output : Output) :
    count_lists resolver queries sources output =
      collectExcept ((pairsOf queries sources).map fun p =>
        (lookup resolver p.2 p.1 output).fst) := by
  unfold count_lists pairsOf
  rw [List.map_flatMap]
  simp [List.map_map, Function.comp_def]

theorem collectExcept_map_ok {γ ε α : Type} (l : List γ) (g : γ → α) :
    collectExcept (l.map fun x => (Except.ok (g x) : Except ε α)) = Except.ok (l.map g) := by
  induction l with
  | nil => rfl
  | cons x t ih => simp [collectExcept, ih, Except.map]

theorem collectExcept_append_ok {ε α : Type} (l1 l2 : List (Except ε α)) (v : List α) :
    collectExcept l1 = Except.ok v →
      collectExcept (l1 ++ l2) = (collectExcept l2).map fun w => v ++ w := by
  induction l1 generalizing v with
  | nil =>
    intro h
    simp [collectExcept] at h
    subst h
    cases hc : collectExcept l2 <;> simp [Except.map, hc]
  | cons x t ih =>
    intro h
    cases x with
    | error e => simp [collectExcept] at h
    | ok a =>
      simp only [collectExcept] at h
      cases ht : collectExcept t with
      | error e => rw [ht] at h; simp [Except.map] at h
      | ok w =>
        rw [ht] at h
        simp only [Except.map, Except.ok.injEq] at h
        subst h
        simp only [List.cons_append, collectExcept, List.append_eq]
        rw [ih w ht]
        cases hc : collectExcept l2 <;> simp [Except.map, hc]

theorem collectExcept_all_ok {γ ε α : Type} (l : List γ) (g : γ → Except ε α) :
    (∀ x ∈ l, ∃ a, g x = Except.ok a) →
      ∃ v, collectExcept (l.map g) = Except.ok v := by
  induction l with
  | nil => exact fun _ => ⟨[], rfl⟩
  | cons x t ih =>
    intro h
    obtain ⟨a, ha⟩ := h x (List.mem_cons_self x t)
    obtain ⟨v, hv⟩ := ih fun y hy => h y (List.mem_cons_of_mem x hy)
    exact ⟨a :: v, by simp [collectExcept, ha, hv, Except.map]⟩

/-- Claim C1: when every (query, source) lookup succeeds, the batch returns
exactly one membership record per pair, in query-major, source-minor order. -/
theorem claim1_batch_cross_product_order (resolver : Resolver) (queries : List Query)
    (sources : List String) (output : Output) (f : Query → String → DnsListMembership) :
    (∀ q ∈ queries, ∀ s ∈ sources, (lookup resolver s q output).fst = Except.ok (f q s)) →
      count_lists resolver queries sources output =
        Except.ok (queries.flatMap fun q => sources.map fun s => f q s) := by
  induction queries with
  | nil => exact fun _ => rfl
  | cons q qs ih =>
    intro h
    unfold count_lists
    rw [List.flatMap_cons, List.flatMap_cons]
    have h1 : (sources.map fun s => (lookup resolver s q output).fst)
        = sources.map fun s => (Except.ok (f q s) : Except DnsCheckError DnsListMembership) :=
      List.map_congr_left fun s hs => h q (List.mem_cons_self q qs) s hs
    rw [h1,
      collectExcept_append_ok _ _ _ (collectExcept_map_ok sources fun s => f q s)]
    have ih2 := ih fun q' hq' s hs => h q' (List.mem_cons_of_mem q hq') s hs
    unfold count_lists at ih2
    rw [ih2]
    simp [Except.map]

/-- Witness for claim C1: queries [A, B] and sources [S1, S2] with an
always-empty resolver reply produce exactly [(A,S1), (A,S2), (B,S1), (B,S2)]. -/
theorem claim1_batch_cross_product_order_witness :
    (∀ q ∈ [Query.Domain "a", Query.Domain "b"], ∀ s ∈ ["s1", "s2"],
      (lookup (fun _ => Except.ok ([], "", 0)) s q Output.Quiet).fst =
        Except.ok ⟨Query.render q, s, false⟩) ∧
    count_lists (fun _ => Except.ok ([], "", 0))
      [Query.Domain "a", Query.Domain "b"] ["s1", "s2"] Output.Quiet =
      Except.ok [⟨"a", "s1", false⟩, ⟨"a", "s2", false⟩,
        ⟨"b", "s1", false⟩, ⟨"b", "s2", false⟩] :=
  ⟨by decide,
    (claim1_batch_cross_product_order (fun _ => Except.ok ([], "", 0))
      [Query.Domain "a", Query.Domain "b"] ["s1", "s2"] Output.Quiet
      (fun q s => ⟨Query.render q, s, false⟩) (by decide)).trans (by decide)⟩

/-- Claim C2: the batch is fail-fast: if every pair before some pair succeeds
and that pair's lookup errors, the whole batch call returns exactly that
error, whatever the lookups of the later pairs would do. -/
theorem claim2_batch_fail_fast (resolver : Resolver) (queries : List Query)
    (sources : List String) (output : Output) (e : DnsCheckError) (q0 : Query) (s0 : String)
    (pre post : List (Query × String))
    (hsplit : pairsOf queries sources = pre ++ (q0, s0) :: post)
    (hpre : ∀ p ∈ pre, ∃ m, (lookup resolver p.2 p.1 output).fst = Except.ok m)
    (hfail : (lookup resolver s0 q0 output).fst = Except.error e) :
    count_lists resolver queries sources output = Except.error e := by
  rw [count_lists_eq_pairs, hsplit]
  obtain ⟨v, hv⟩ :=
    collectExcept_all_ok pre (fun p => (lookup resolver p.2 p.1 output).fst) hpre
  rw [List.map_append, List.map_cons, hfail, collectExcept_append_ok _ _ _ hv]
  simp [collectExcept, Except.map]

/-- A resolver that fails with a transport error exactly for the hostname
"a.s2." and otherwise replies with an empty address list. -/
def resolverFailA2 : Resolver := fun h =>
  if h = "a.s2." then Except.error ⟨"fail.transport", "boom"⟩ else Except.ok ([], "", 0)

/-- Witness for claim C2: queries [a, b] and sources [s1, s2] where the (a,s2)
lookup raises a transport error make the whole batch return that error. -/
theorem claim2_batch_fail_fast_witness :
    pairsOf [Query.Domain "a", Query.Domain "b"] ["s1", "s2"] =
      [(Query.Domain "a", "s1")] ++ (Query.Domain "a", "s2") ::
        [(Query.Domain "b", "s1"), (Query.Domain "b", "s2")] ∧
    (lookup resolverFailA2 "s2" (Query.Domain "a") Output.Quiet).fst =
      Except.error (DnsCheckError.DBus "fail.transport" "boom") ∧
    count_lists resolverFailA2 [Query.Domain "a", Query.Domain "b"] ["s1", "s2"]
      Output.Quiet = Except.error (DnsCheckError.DBus "fail.transport" "boom") :=
  ⟨by decide, by decide,
    claim2_batch_fail_fast resolverFailA2 [Query.Domain "a", Query.Domain "b"] ["s1", "s2"]
      Output.Quiet (DnsCheckError.DBus "fail.transport" "boom") (Query.Domain "a") "s2"
      [(Query.Domain "a", "s1")] [(Query.Domain "b", "s1"), (Query.Domain "b", "s2")]
      (by decide)
      (fun p hp => ⟨⟨"a", "s1", false⟩, by
        simp only [List.mem_singleton] at hp
        subst hp
        decide⟩)
      (by decide)⟩

/-- Claim C3: a resolver error whose identifier starts with the NXDOMAIN
error-domain name is absorbed into a successful membership with found =
false; any other resolver error propagates out of the lookup (and out of the
batch) carrying the reported identifier and description verbatim. -/
theorem claim3_nxdomain_absorbed (resolver : Resolver) (source : String) (query : Query)
    (output : Output) (e : MethodErr)
    (hres : resolver (hostnameOf query source) = Except.error e) :
    (strStartsWith e.errorname "org.freedesktop.resolve1.DnsError.NXDOMAIN" = true →
      (lookup resolver source query output).fst =
        Except.ok ⟨Query.render query, source, false⟩) ∧
    (strStartsWith e.errorname "org.freedesktop.resolve1.DnsError.NXDOMAIN" = false →
      (lookup resolver source query output).fst =
        Except.error (DnsCheckError.DBus e.errorname e.description) ∧
      count_lists resolver [query] [source] output =
        Except.error (DnsCheckError.DBus e.errorname e.description)) := by
  constructor
  · intro h
    simp [lookup, hres, Except.mapError, DnsCheckError.fromMethodErr, h]
  · intro h
    constructor
    · simp [lookup, hres, Except.mapError, DnsCheckError.fromMethodErr, h]
    · simp [count_lists, collectExcept, lookup, hres, Except.mapError,
        DnsCheckError.fromMethodErr, h]

/-- A resolver that always reports an NXDOMAIN-prefixed error. -/
def resolverNx : Resolver := fun _ =>
  Except.error ⟨"org.freedesktop.resolve1.DnsError.NXDOMAIN.suffix", "nope"⟩

/-- Witness for claim C3 at an NXDOMAIN-prefixed resolver error: the lookup
succeeds with found = false. -/
theorem claim3_nxdomain_absorbed_witness :
    resolverNx (hostnameOf (Query.Domain "a") "s1") =
      Except.error ⟨"org.freedesktop.resolve1.DnsError.NXDOMAIN.suffix", "nope"⟩ ∧
    strStartsWith "org.freedesktop.resolve1.DnsError.NXDOMAIN.suffix"
      "org.freedesktop.resolve1.DnsError.NXDOMAIN" = true ∧
    (lookup resolverNx "s1" (Query.Domain "a") Output.Quiet).fst =
      Except.ok ⟨"a", "s1", false⟩ :=
  ⟨rfl, by decide,
    (claim3_nxdomain_absorbed resolverNx "s1" (Query.Domain "a") Output.Quiet
      ⟨"org.freedesktop.resolve1.DnsError.NXDOMAIN.suffix", "nope"⟩ rfl).1 (by decide)⟩

/-- Claim C4: a successful resolver reply yields a membership record whose
found field is true exactly when the address-record list is non-empty, whose
name is the textual rendering of the query, and whose list is the source. -/
theorem claim4_found_iff_nonempty (resolver : Resolver) (source : String) (query : Query)
    (output : Output) (addrs : List (Int × Int × List Nat)) (cname : String) (flags : Nat)
    (hres : resolver (hostnameOf query source) = Except.ok (addrs, cname, flags)) :
    ∃ m, (lookup resolver source query output).fst = Except.ok m ∧
      m.name = Query.render query ∧ m.list = source ∧ (m.found = true ↔ addrs ≠ []) := by
  refine ⟨⟨Query.render query, source, !addrs.isEmpty⟩, ?_, rfl, rfl, ?_⟩
  · simp [lookup, hres, Except.mapError]
  · cases addrs <;> simp

/-- A resolver that replies with one address record. -/
def resolverOneAddr : Resolver := fun _ =>
  Except.ok ([(2, 0, [127, 0, 0, 2])], "cn", 0)

/-- Witness for claim C4 with a non-empty reply list. -/
theorem claim4_found_iff_nonempty_witness :
    resolverOneAddr (hostnameOf (Query.Domain "a") "s1") =
      Except.ok ([(2, 0, [127, 0, 0, 2])], "cn", 0) ∧
    ∃ m, (lookup resolverOneAddr "s1" (Query.Domain "a") Output.Quiet).fst = Except.ok m ∧
      m.name = Query.render (Query.Domain "a") ∧ m.list = "s1" ∧
      (m.found = true ↔ ([(2, 0, [127, 0, 0, 2])] : List (Int × Int × List Nat)) ≠ []) :=
  ⟨rfl, claim4_found_iff_nonempty resolverOneAddr "s1" (Query.Domain "a") Output.Quiet
    [(2, 0, [127, 0, 0, 2])] "cn" 0 rfl⟩
